import Mathlib

/-
Verification development for the Tizen TV remote-control interface
(three-layer map / dashboard / detail navigation engine).

The definitions below are shallow embeddings of the JavaScript source:
  * LayerNavigationManager.js  (layer state machine, history, transitions)
  * TVRemoteInputHandler.js    (key normalization, dispatch, debounce)
  * DashboardGrid.js           (grid layout and per-tile navigation attributes)
  * FocusManager.js            (focus save / restore / refresh / spatial move)

Machine integers are modelled as Nat / Int; JavaScript `null` / `undefined`
as Option; DOM element references as immutable Element records identified by
a numeric key; the single-threaded event loop timing of the input debounce as
an explicit trace semantics over arrival times.
-/

namespace DKTT

/-! ## LayerNavigationManager -/

/-- Layer constants: LAYER.MAP = 1, LAYER.CONTROL_PANEL = 2,
LAYER.DETAIL_SCREEN = 3 in the source. -/
inductive Layer
  | map
  | controlPanel
  | detailScreen
deriving DecidableEq, Repr

/-- TransitionState enum of LayerNavigationManager.js. -/
inductive TransState
  | idle
  | savingFocus
  | hiding
  | showing
  | restoringFocus
  | complete
deriving DecidableEq, Repr

/-- Observable state of LayerNavigationManager.  `exitRequests` counts the
invocations of `handleExitApp` (the exit-request notification handed to the
external Tizen application collaborator). -/
structure LayerNavState where
  currentLayer : Layer
  layerHistory : List Layer
  transitionState : TransState
  isTransitioning : Bool
  exitRequests : Nat
deriving DecidableEq, Repr

/-- Adjacency table of `LayerNavigationManager.canTransition`:
MAP -> [CONTROL_PANEL], CONTROL_PANEL -> [MAP, DETAIL_SCREEN],
DETAIL_SCREEN -> [CONTROL_PANEL]. -/
def canTransition : Layer → Layer → Bool
  | .map, .controlPanel => true
  | .controlPanel, .map => true
  | .controlPanel, .detailScreen => true
  | .detailScreen, .controlPanel => true
  | _, _ => false

/-- State effect of `LayerNavigationManager.performTransition`.  The awaited
collaborator steps (save focus, hide, iframe open/close, show) are summarized
by `ok`: when `ok = true` no step threw and the method runs steps 5-8
(history push/pop, current-layer update, focus restore, notify) and returns
true; when `ok = false` a step of 1-4 threw before any history or layer
mutation, the catch branch returns false.  In both cases the finally branch
clears `isTransitioning` and the transition state. -/
def performTransition (s : LayerNavState) (toLayer : Layer) (isBack : Bool)
    (ok : Bool) : Bool × LayerNavState :=
  if ok then
    let hist := if isBack then s.layerHistory.dropLast
                else s.layerHistory ++ [toLayer]
    (true, { s with currentLayer := toLayer, layerHistory := hist,
                    transitionState := .idle, isTransitioning := false })
  else
    (false, { s with transitionState := .idle, isTransitioning := false })

/-- `LayerNavigationManager.pushLayer`: rejects when a transition is in
progress, when the target equals the current layer, or when the adjacency
table forbids the move; otherwise performs the transition. -/
def pushLayer (s : LayerNavState) (layer : Layer) (ok : Bool) :
    Bool × LayerNavState :=
  if s.isTransitioning then (false, s)
  else if layer = s.currentLayer then (false, s)
  else if ¬ canTransition s.currentLayer layer then (false, s)
  else performTransition s layer false ok

/-- `LayerNavigationManager.popLayer`: rejects while transitioning; at the
history root (length <= 1) calls `handleExitApp` once and returns false;
otherwise transitions back to the second-to-last history entry. -/
def popLayer (s : LayerNavState) (ok : Bool) : Bool × LayerNavState :=
  if s.isTransitioning then (false, s)
  else if s.layerHistory.length ≤ 1 then
    (false, { s with exitRequests := s.exitRequests + 1 })
  else
    match s.layerHistory[s.layerHistory.length - 2]? with
    | none => (false, s)
    | some prev => performTransition s prev true ok

/-- Initial coordinator state after `init()`: current layer MAP, history
seeded with [MAP]. -/
def initNavState : LayerNavState :=
  { currentLayer := .map, layerHistory := [.map],
    transitionState := .idle, isTransitioning := false, exitRequests := 0 }

/-- A coordinator state resting on the Dashboard layer, as reached after
one successful MAP -> CONTROL_PANEL transition. -/
def dashboardNavState : LayerNavState :=
  { currentLayer := .controlPanel, layerHistory := [.map, .controlPanel],
    transitionState := .idle, isTransitioning := false, exitRequests := 0 }

/-! ## TVRemoteInputHandler: key normalization -/

/-- A raw keyboard event as seen by `handleKeyDown`: `event.key` may be
absent on some models, `event.keyCode` may be absent, 0 or 229. -/
structure RawEvent where
  key : Option String
  keyCode : Option Nat
deriving DecidableEq, Repr

/-- Normalized key object produced by `normalizeKeyCode` (the
`originalEvent` field carries no information for the dispatch logic and is
omitted). -/
structure NormalizedKey where
  key : Option String
  keyCode : Option Nat
deriving DecidableEq, Repr

/-- The KEY_NAME_MAP table of TVRemoteInputHandler.js. -/
def keyNameMap : String → Option Nat
  | "ArrowUp" => some 38
  | "ArrowDown" => some 40
  | "ArrowLeft" => some 37
  | "ArrowRight" => some 39
  | "Up" => some 38
  | "Down" => some 40
  | "Left" => some 37
  | "Right" => some 39
  | "Enter" => some 13
  | "Return" => some 13
  | "Escape" => some 27
  | "XF86Back" => some 10009
  | "Back" => some 10009
  | "0" => some 48
  | "1" => some 49
  | "2" => some 50
  | "3" => some 51
  | "4" => some 52
  | "5" => some 53
  | "6" => some 54
  | "7" => some 55
  | "8" => some 56
  | "9" => some 57
  | _ => none

/-- The unreliable-keyCode test of `normalizeKeyCode`:
`!keyCode || keyCode === 0 || keyCode === 229`. -/
def unreliableCode (kc : Option Nat) : Bool :=
  kc = none ∨ kc = some 0 ∨ kc = some 229

/-- `TVRemoteInputHandler.normalizeKeyCode`: resolve an unreliable keyCode
through KEY_NAME_MAP; unify the Tizen back spellings to key "Back" with
code 10009; then rewrite the keyCode (not the key name) for the arrow and
Enter/Return spellings.  The three if-blocks run in sequence exactly as in
the source. -/
def normalizeKeyCode (ev : RawEvent) : NormalizedKey :=
  let kc1 : Option Nat :=
    if unreliableCode ev.keyCode then
      match ev.key with
      | some k => match keyNameMap k with
                  | some c => some c
                  | none => ev.keyCode
      | none => ev.keyCode
    else ev.keyCode
  let back : Bool :=
    ev.key = some "XF86Back" ∨ ev.key = some "Back" ∨ kc1 = some 10009
  let key1 : Option String := if back then some "Back" else ev.key
  let kc2 : Option Nat := if back then some 10009 else kc1
  let kc3 : Option Nat :=
    if key1 = some "Up" ∨ key1 = some "ArrowUp" then some 38
    else if key1 = some "Down" ∨ key1 = some "ArrowDown" then some 40
    else if key1 = some "Left" ∨ key1 = some "ArrowLeft" then some 37
    else if key1 = some "Right" ∨ key1 = some "ArrowRight" then some 39
    else if key1 = some "Enter" ∨ key1 = some "Return" then some 13
    else kc2
  { key := key1, keyCode := kc3 }

/-- The dispatch routing of the switch statement in
`TVRemoteInputHandler.processKey`, keyed on the normalized keyCode. -/
inductive KeyAction
  | arrowUp
  | arrowDown
  | arrowLeft
  | arrowRight
  | enter
  | back
  | volumeZoom (dir : Int)
  | digit (n : Nat)
  | noAction
deriving DecidableEq, Repr

/-- Route a normalized keyCode to the default handler chosen by the switch
in `processKey` (ESCAPE 27 and TIZEN back 10009 both reach
`handleBackKey`; 48-57 reach `handleNumberKey`). -/
def routeKey (keyCode : Option Nat) : KeyAction :=
  match keyCode with
  | some 38 => .arrowUp
  | some 40 => .arrowDown
  | some 37 => .arrowLeft
  | some 39 => .arrowRight
  | some 13 => .enter
  | some 27 => .back
  | some 10009 => .back
  | some 447 => .volumeZoom 1
  | some 448 => .volumeZoom (-1)
  | some c => if 48 ≤ c ∧ c ≤ 57 then .digit (c - 48) else .noAction
  | none => .noAction

/-! ## TVRemoteInputHandler: debounce trace semantics -/

/-- The fixed debounce window `this.inputDelay = 100` (ms). -/
def inputDelay : Nat := 100

/-- One physical key delivery: its arrival time and the duration its
(possibly asynchronous) handler takes to complete once dispatched. -/
structure KeyArrival where
  time : Nat
  dur : Nat
deriving DecidableEq, Repr

/-- The cooperative busy interval of the dispatcher: `handleKeyDown` drops
an event while `isProcessing` is true; `processKey` sets `isProcessing`
synchronously on acceptance and the finally branch schedules the reset
`inputDelay` after the handler completes, so after accepting an event at
time t with handler duration d the dispatcher is busy until t + d +
inputDelay.  `busyAfter b tr` is the end of the busy interval after the
whole trace `tr` has been delivered, starting from busy-until time b. -/
def busyAfter (b : Nat) : List KeyArrival → Nat
  | [] => b
  | e :: rest =>
      busyAfter (if e.time < b then b else e.time + e.dur + inputDelay) rest

/-- Run the dispatcher over a trace of key deliveries, marking each event
with whether it was dispatched (true) or dropped by the
`isEnabled/isProcessing` guard of `handleKeyDown` (false). -/
def runDispatch (b : Nat) : List KeyArrival → List (KeyArrival × Bool)
  | [] => []
  | e :: rest =>
      if e.time < b then (e, false) :: runDispatch b rest
      else (e, true) :: runDispatch (e.time + e.dur + inputDelay) rest

/-! ## TVRemoteInputHandler: processKey exception boundary -/

/-- Outcome of invoking one key handler: it returns normally (reporting
whether it handled the key, relevant for custom listeners) or it throws. -/
inductive HandlerOutcome
  | ok (handled : Bool)
  | throws
deriving DecidableEq, Repr

/-- Observable outcome of one `processKey` call: whether an exception
escaped the method (its returned promise rejects - there is no catch
branch) and whether the finally branch scheduled the `isProcessing` reset
after `inputDelay`. -/
structure DispatchOutcome where
  threw : Bool
  resetScheduled : Bool
deriving DecidableEq, Repr

/-- `TVRemoteInputHandler.processKey` body: the try block first invokes the
custom listener if one is registered (an exception there propagates - the
method has try/finally but no catch; a true result short-circuits), then
the default switch handler; the finally branch unconditionally schedules
the debounce reset. -/
def processKeyOutcome (custom : Option HandlerOutcome)
    (dflt : HandlerOutcome) : DispatchOutcome :=
  match custom with
  | some .throws => { threw := true, resetScheduled := true }
  | some (.ok true) => { threw := false, resetScheduled := true }
  | some (.ok false) =>
      match dflt with
      | .throws => { threw := true, resetScheduled := true }
      | .ok _ => { threw := false, resetScheduled := true }
  | none =>
      match dflt with
      | .throws => { threw := true, resetScheduled := true }
      | .ok _ => { threw := false, resetScheduled := true }

/-! ## DashboardGrid: layout and navigation attributes -/

/-- A screen record as consumed by DashboardGrid (only the STT number is
relevant for navigation attributes). -/
structure Screen where
  stt : Int
deriving DecidableEq, Repr

/-- The columns/rows part of the layout computed by
`DashboardGrid.calculateLayout` (the flex/grid styling fields do not enter
the navigation computation and are omitted). -/
structure GridLayout where
  columns : Nat
  rows : Nat
deriving DecidableEq, Repr

/-- `DashboardGrid.calculateLayout`: null for zero screens, a fixed table
up to 12 screens, then 4 columns with ceil(n/4) rows. -/
def calculateLayout (n : Nat) : Option GridLayout :=
  if n = 0 then none
  else some (
    if n = 1 then ⟨1, 1⟩
    else if n = 2 then ⟨2, 1⟩
    else if n = 3 then ⟨3, 1⟩
    else if n = 4 then ⟨2, 2⟩
    else if n = 5 ∨ n = 6 then ⟨3, 2⟩
    else if n = 7 then ⟨4, 2⟩
    else if n = 8 then ⟨4, 2⟩
    else if n = 9 then ⟨3, 3⟩
    else if n = 10 then ⟨4, 3⟩
    else if n = 11 then ⟨4, 3⟩
    else if n = 12 then ⟨4, 3⟩
    else ⟨4, (n + 3) / 4⟩)

/-- The data-nav-* attributes written onto one tile by
`DashboardGrid.setNavigationAttributes` (-1 is the no-neighbor sentinel). -/
structure NavAttrs where
  up : Int
  down : Int
  left : Int
  right : Int
  upStt : Int
  downStt : Int
  leftStt : Int
  rightStt : Int
  row : Nat
  col : Nat
deriving DecidableEq, Repr

/-- The `getNeighborStt` helper inside `setNavigationAttributes`: the STT
of the screen at a neighbor index, -1 when the index is out of range. -/
def getNeighborStt (screens : List Screen) (i : Int) : Int :=
  if i < 0 ∨ (screens.length : Int) ≤ i then -1
  else match screens[i.toNat]? with
       | some sc => sc.stt
       | none => -1

/-- `DashboardGrid.setNavigationAttributes` for the tile at `index` (the
source divides by `layout.columns`, which `calculateLayout` always makes
positive).  Down has a neighbor only from a non-last row: the direct
neighbor `index + columns` when it exists, otherwise clamped to the last
item. -/
def setNavigationAttributes (screens : List Screen) (layout : GridLayout)
    (index : Nat) : NavAttrs :=
  let columns := layout.columns
  let n := screens.length
  let row := index / columns
  let col := index % columns
  let up : Int := if 0 < row then (index : Int) - (columns : Int) else -1
  let down : Int :=
    if (row : Int) < (layout.rows : Int) - 1 then
      (if index + columns < n then ((index + columns : Nat) : Int)
       else (n : Int) - 1)
    else -1
  let left : Int := if 0 < col then (index : Int) - 1 else -1
  let right : Int :=
    if (col : Int) < (columns : Int) - 1 ∧ index + 1 < n then (index : Int) + 1
    else -1
  { up := up, down := down, left := left, right := right,
    upStt := getNeighborStt screens up, downStt := getNeighborStt screens down,
    leftStt := getNeighborStt screens left,
    rightStt := getNeighborStt screens right,
    row := row, col := col }

/-- Seven active screens with STT 0..6, the spec's grid-clamp example. -/
def screens7 : List Screen :=
  [⟨0⟩, ⟨1⟩, ⟨2⟩, ⟨3⟩, ⟨4⟩, ⟨5⟩, ⟨6⟩]

/-! ## FocusManager: DOM model -/

/-- Direction enum of FocusManager.js. -/
inductive Dir
  | up
  | down
  | left
  | right
deriving DecidableEq, Repr

/-- A DOM element as far as FocusManager inspects it.  `key` is the node
identity; `idAttr` is the element id (none for an absent or empty id, both
falsy in the source's truthiness checks); `dataStt` / `dataIndex` are the
attribute values when the attribute is present; `visible` models
`offsetParent !== null`; `parentTag` / `childPos` feed the nth-child
selector branch; the `nav*` fields are the data-nav-* attribute values
written by DashboardGrid (none when the attribute is absent). -/
structure Element where
  key : Nat
  idAttr : Option String := none
  dataStt : Option String := none
  dataIndex : Option String := none
  classes : List String := []
  tabindex0 : Bool := false
  visible : Bool := true
  parentTag : Option String := none
  childPos : Nat := 0
  navUp : Option Int := none
  navDown : Option Int := none
  navLeft : Option Int := none
  navRight : Option Int := none
  navUpStt : Option Int := none
  navDownStt : Option Int := none
  navLeftStt : Option Int := none
  navRightStt : Option Int := none
deriving DecidableEq, Repr

/-- Whether the element carries the screen-tile class. -/
def isScreenTile (e : Element) : Bool :=
  e.classes.contains "screen-tile"

/-- The CSS selector shapes produced by
`FocusManager.buildElementSelector`, as an abstract syntax instead of a
string:  .screen-tile[data-stt="v"], #v, .cls[data-index="v"], and
tag > :nth-child(k). -/
inductive Selector
  | sttSel (v : String)
  | idSel (v : String)
  | classIdx (cls v : String)
  | nthChild (tag : String) (k : Nat)
deriving DecidableEq, Repr

/-- Matching semantics of the four selector shapes against an element. -/
def matchesSel : Selector → Element → Bool
  | .sttSel v, e => isScreenTile e && e.dataStt == some v
  | .idSel v, e => e.idAttr == some v
  | .classIdx c v, e => e.classes.contains c && e.dataIndex == some v
  | .nthChild t k, e => e.parentTag == some t && e.childPos == k

/-- `document.querySelector`: first element of the document (in document
order) matching the selector. -/
def querySelector (dom : List Element) (s : Selector) : Option Element :=
  dom.find? (matchesSel s)

/-- `document.getElementById`. -/
def getElementById (dom : List Element) (v : String) : Option Element :=
  dom.find? (fun e => e.idAttr == some v)

/-- `FocusManager.buildElementSelector`: data-stt first, then id, then
data-index with the first class name, then parent tag with nth-child,
else null. -/
def buildElementSelector (e : Element) : Option Selector :=
  match e.dataStt with
  | some v => some (.sttSel v)
  | none =>
    match e.idAttr with
    | some i => some (.idSel i)
    | none =>
      match e.dataIndex with
      | some v => some (.classIdx (e.classes.headD "") v)
      | none =>
        match e.parentTag with
        | some t => some (.nthChild t (e.childPos + 1))
        | none => none

/-- The metadata captured for the dashboard layer by
`FocusManager.buildLayerMetadata`. -/
structure SavedMeta where
  screenSTT : Option String
  tileIndex : Option String
deriving DecidableEq, Repr

/-- A saved FocusState for the dashboard layer (the timestamp and the
constant layer tag carry no information for restoration and are
omitted). -/
structure FocusState where
  selector : Option Selector
  elementIndex : Int
  scrollX : Int
  scrollY : Int
  metadata : SavedMeta
deriving DecidableEq, Repr

/-- FocusManager state for the dashboard layer together with the DOM focus
and the layer container's scroll offsets.  `currentFocused` /
`activeElement` are element snapshots, with none standing for null or
document.body (treated identically by every check in the source);
`pendingScroll` records the key of the element last handed to
`scrollIntoView` by `setFocus`; `savedState` is `focusStates.get` for the
layer and `savedStack` the append-only `focusStateStack`. -/
structure FMState where
  currentFocused : Option Element
  activeElement : Option Element
  scrollX : Int
  scrollY : Int
  pendingScroll : Option Nat
  savedState : Option FocusState
  savedStack : List FocusState
deriving DecidableEq, Repr

/-- The fresh FocusManager state. -/
def initFMState : FMState :=
  { currentFocused := none, activeElement := none, scrollX := 0,
    scrollY := 0, pendingScroll := none, savedState := none,
    savedStack := [] }

/-- `FocusManager.getFocusableElements` for the dashboard layer: elements
matching .screen-tile[tabindex="0"] inside the container, filtered to
those with a non-null offsetParent. -/
def focusablesDashboard (dom : List Element) : List Element :=
  dom.filter (fun e => isScreenTile e && e.tabindex0 && e.visible)

/-- `FocusManager.setFocus`: focuses the element (making it the active
element), tracks it, and scrolls it into view. -/
def setFocus (e : Element) (st : FMState) : FMState :=
  { st with currentFocused := some e, activeElement := some e,
            pendingScroll := some e.key }

/-- JavaScript array indexing `xs[i]` with a possibly negative index:
undefined (none) outside [0, length). -/
def idxGet (xs : List Element) (i : Int) : Option Element :=
  if i < 0 then none else xs[i.toNat]?

/-- Accumulator-passing core of `Array.prototype.indexOf`. -/
def idxOfAux (xs : List Element) (a : Element) (k : Nat) : Int :=
  match xs with
  | [] => -1
  | x :: rest => if x = a then (k : Int) else idxOfAux rest a (k + 1)

/-- `Array.prototype.indexOf`: position of the element, -1 when absent. -/
def indexOfInt (xs : List Element) (a : Element) : Int :=
  idxOfAux xs a 0

/-- `FocusManager.getFirstFocusable` for the dashboard layer. -/
def getFirstFocusable (dom : List Element) : Option Element :=
  (focusablesDashboard dom).head?

/-- `FocusManager.focusFirstElement`: focus the first focusable element,
reporting whether one existed. -/
def focusFirstElement (dom : List Element) (st : FMState) : Bool × FMState :=
  match getFirstFocusable dom with
  | some e => (true, setFocus e st)
  | none => (false, st)

/-- `FocusManager.restoreScrollPosition` on the layer container. -/
def restoreScrollPosition (x y : Int) (st : FMState) : FMState :=
  { st with scrollX := x, scrollY := y }

/-- `FocusManager.saveFocusState` for the dashboard layer: captures the
currently focused element's selector (data-stt preferred over id), its
index among the focusables, the container scroll offsets and the dashboard
metadata, storing the state in the per-layer map and pushing it on the
stack; with no focused element (or body focused) nothing changes. -/
def saveFocusState (dom : List Element) (st : FMState) : FMState :=
  match st.currentFocused <|> st.activeElement with
  | none => st
  | some e =>
    let fs : FocusState :=
      { selector := buildElementSelector e,
        elementIndex := indexOfInt (focusablesDashboard dom) e,
        scrollX := st.scrollX, scrollY := st.scrollY,
        metadata := { screenSTT := e.dataStt, tileIndex := e.dataIndex } }
    { st with savedState := some fs, savedStack := st.savedStack ++ [fs] }

/-- `FocusManager.restoreFocusState` for the dashboard layer: with no
saved state, focus the first element; otherwise try the saved selector,
then the saved index into the focusable list, then the first focusable
element; focus the first hit and re-apply the saved scroll offsets, else
report failure. -/
def restoreFocusState (dom : List Element) (st : FMState) :
    Bool × FMState :=
  match st.savedState with
  | none => focusFirstElement dom st
  | some state =>
    let el1 : Option Element :=
      match state.selector with
      | some sel => querySelector dom sel
      | none => none
    let el2 : Option Element :=
      match el1 with
      | some e => some e
      | none => idxGet (focusablesDashboard dom) state.elementIndex
    let el3 : Option Element :=
      match el2 with
      | some e => some e
      | none => getFirstFocusable dom
    match el3 with
    | some e =>
      (true, restoreScrollPosition state.scrollX state.scrollY (setFocus e st))
    | none => (false, st)

/-- Declarative restatement of the amended restoration order: the saved
selector first, then the saved ordinal index, then the first focusable
item, the first strategy yielding a live element winning.  Stated with
ordered alternatives to compare against the imperative
`restoreFocusState`. -/
def restoreChainSpec (dom : List Element) (state : FocusState) :
    Option Element :=
  (match state.selector with
   | some sel => querySelector dom sel
   | none => none) <|>
  idxGet (focusablesDashboard dom) state.elementIndex <|>
  getFirstFocusable dom

/-- The identifying information captured by
`FocusManager.captureFocusInfo` before a refresh. -/
structure FocusInfo where
  stt : Option String
  idVal : Option String
  selector : Option Selector
  index : Int
  dataIndex : Option String
  className : Option String
deriving DecidableEq, Repr

/-- `FocusManager.captureFocusInfo`: all addressing facets of the focused
element (empty info for null/body). -/
def captureFocusInfo (dom : List Element) (el : Option Element) :
    FocusInfo :=
  match el with
  | none =>
    { stt := none, idVal := none, selector := none, index := -1,
      dataIndex := none, className := none }
  | some e =>
    { stt := e.dataStt,
      idVal := e.idAttr,
      selector := buildElementSelector e,
      index := indexOfInt (focusablesDashboard dom) e,
      dataIndex := e.dataIndex,
      className := if e.classes = [] then none
                   else some (String.intercalate " " e.classes) }

/-- The result object returned by
`FocusManager.refreshFocusableElements`. -/
structure RefreshResult where
  focusableCount : Nat
  previousFocusValid : Bool
  focusRestored : Bool
  focusedElement : Option Element
  focusInfo : FocusInfo
deriving DecidableEq, Repr

/-- `FocusManager.refreshFocusableElements` for the dashboard layer: if
the focused element is still in the document and visible, keep it and
return early; otherwise try, in order, the captured data-stt, the
captured id, the captured selector, the clamped captured index, the saved
per-layer state (its selector then its metadata STT), and finally the
first focusable element; if everything fails, clear the tracked focus
reference. -/
def refreshFocusableElements (dom : List Element) (st : FMState) :
    RefreshResult × FMState :=
  let focused := st.currentFocused <|> st.activeElement
  let info := captureFocusInfo dom focused
  let valid : Bool :=
    match focused with
    | some e => decide (e ∈ dom) && e.visible
    | none => false
  let focusables := focusablesDashboard dom
  if valid then
    ({ focusableCount := focusables.length, previousFocusValid := true,
       focusRestored := true, focusedElement := focused,
       focusInfo := info }, st)
  else
    let s1 : Option Element :=
      match info.stt with
      | some v => querySelector dom (.sttSel v)
      | none => none
    let s2 : Option Element :=
      match s1 with
      | some e => some e
      | none =>
        match info.idVal with
        | some v => getElementById dom v
        | none => none
    let s3 : Option Element :=
      match s2 with
      | some e => some e
      | none =>
        match info.selector with
        | some sel => querySelector dom sel
        | none => none
    let s4 : Option Element :=
      match s3 with
      | some e => some e
      | none =>
        if 0 ≤ info.index ∧ 0 < focusables.length then
          idxGet focusables (min info.index ((focusables.length : Int) - 1))
        else none
    let s5 : Option Element :=
      match s4 with
      | some e => some e
      | none =>
        match st.savedState with
        | some saved =>
          let fromSel : Option Element :=
            match saved.selector with
            | some sel => querySelector dom sel
            | none => none
          match fromSel with
          | some e => some e
          | none =>
            match saved.metadata.screenSTT with
            | some v => querySelector dom (.sttSel v)
            | none => none
        | none => none
    let s6 : Option Element :=
      match s5 with
      | some e => some e
      | none => focusables.head?
    match s6 with
    | some e =>
      ({ focusableCount := focusables.length, previousFocusValid := false,
         focusRestored := true, focusedElement := some e,
         focusInfo := info }, setFocus e st)
    | none =>
      ({ focusableCount := focusables.length, previousFocusValid := false,
         focusRestored := false, focusedElement := none,
         focusInfo := info }, { st with currentFocused := none })

/-! ## FocusManager: spatial movement -/

/-- The data-nav-(direction) attribute of a tile. -/
def navIdx (a : Element) : Dir → Option Int
  | .up => a.navUp
  | .down => a.navDown
  | .left => a.navLeft
  | .right => a.navRight

/-- The data-nav-(direction)-stt attribute of a tile. -/
def navStt (a : Element) : Dir → Option Int
  | .up => a.navUpStt
  | .down => a.navDownStt
  | .left => a.navLeftStt
  | .right => a.navRightStt

/-- The STT fallback inside the dashboard branch of
`FocusManager.calculateTargetIndex`: resolve the data-nav-stt attribute
through a tile query and return that tile's position among the
focusables; none means fall through to the linear arithmetic. -/
def sttNavLookup (dom : List Element) (focusables : List Element)
    (a : Element) (d : Dir) : Option Int :=
  match navStt a d with
  | some s =>
    if s ≠ -1 then
      match querySelector dom (.sttSel (toString s)) with
      | some t => some (indexOfInt focusables t)
      | none => none
    else none
  | none => none

/-- The dashboard branch of `FocusManager.calculateTargetIndex`: use the
tile's data-nav attribute verbatim when present and not -1, otherwise
fall back to the STT lookup. -/
def dashboardNavLookup (dom : List Element) (focusables : List Element)
    (a : Element) (d : Dir) : Option Int :=
  match navIdx a d with
  | some v => if v ≠ -1 then some v else sttNavLookup dom focusables a d
  | none => sttNavLookup dom focusables a d

/-- The dashboard-layer guard of `FocusManager.calculateTargetIndex`:
attribute-based lookup applies only when the active element is a screen
tile. -/
def dashboardBranch (dom : List Element) (focusables : List Element)
    (d : Dir) (activeEl : Option Element) : Option Int :=
  match activeEl with
  | some a =>
    if isScreenTile a then dashboardNavLookup dom focusables a d else none
  | none => none

/-- `FocusManager.calculateTargetIndex`: for the dashboard layer consult
the active element's navigation attributes; otherwise (and as the shared
fallback) linear arithmetic clamped to the ends of the list. -/
def calculateTargetIndex (dom : List Element) (focusables : List Element)
    (currentIndex : Nat) (total : Nat) (d : Dir) (activeEl : Option Element) :
    Int :=
  match dashboardBranch dom focusables d activeEl with
  | some v => v
  | none =>
    match d with
    | .up | .left => max 0 ((currentIndex : Int) - 1)
    | .down | .right => min ((total : Int) - 1) ((currentIndex : Int) + 1)

/-- Position of the tracked focused element among the focusables (-1 when
nothing is focused or it is not in the list). -/
def currentIndexOf (dom : List Element) (st : FMState) : Int :=
  match st.currentFocused <|> st.activeElement with
  | some e => indexOfInt (focusablesDashboard dom) e
  | none => -1

/-- `FocusManager.moveFocus` on the dashboard layer: with no current focus
in the list, focus the first element; otherwise compute the target index
and move when it is neither -1 nor the current index (indexing past the
end leaves focus unchanged, as `setFocus(undefined)` returns early). -/
def moveFocus (dom : List Element) (st : FMState) (d : Dir) :
    Bool × FMState :=
  let focusables := focusablesDashboard dom
  let currentIndex := currentIndexOf dom st
  if currentIndex = -1 then focusFirstElement dom st
  else
    let target := calculateTargetIndex dom focusables currentIndex.toNat
      focusables.length d st.activeElement
    if target ≠ -1 ∧ target ≠ currentIndex then
      (true, match idxGet focusables target with
             | some e => setFocus e st
             | none => st)
    else (false, st)

/-- A data-nav attribute value is well formed for a list of n focusables
when it is absent, the -1 sentinel, or an index in [0, n). -/
def wfNavVal (n : Nat) (v : Option Int) : Bool :=
  match v with
  | none => true
  | some i => i == -1 || (0 ≤ i && i < (n : Int))

/-- All four data-nav attributes of the active tile are well formed (as
`DashboardGrid.setNavigationAttributes` guarantees for the tiles it
renders). -/
def wfNavAttrs (dom : List Element) (st : FMState) : Bool :=
  match st.activeElement with
  | some a =>
    !(isScreenTile a) ||
      (wfNavVal (focusablesDashboard dom).length a.navUp &&
       wfNavVal (focusablesDashboard dom).length a.navDown &&
       wfNavVal (focusablesDashboard dom).length a.navLeft &&
       wfNavVal (focusablesDashboard dom).length a.navRight)
  | none => true

/-! ## Concrete scenarios for the FocusManager claims -/

/-- The dashboard tile for screen 5 as it stood when focus was saved:
data-stt 5 and element id screen-tile-5. -/
def tileOldC3 : Element :=
  { key := 2, idAttr := some "screen-tile-5", dataStt := some "5",
    dataIndex := some "0", classes := ["screen-tile"], tabindex0 := true }

/-- The dashboard DOM at save time: the focused tile alone. -/
def domOldC3 : List Element := [tileOldC3]

/-- FocusManager state after saving focus on `tileOldC3`: the saved
selector is the data-stt one (data-stt wins over id in
`buildElementSelector`) and the saved index is 0. -/
def stSavedC3 : FMState :=
  saveFocusState domOldC3 { initFMState with currentFocused := some tileOldC3 }

/-- The expected saved FocusState produced by `stSavedC3`. -/
def fsC3 : FocusState :=
  { selector := some (.sttSel "5"), elementIndex := 0, scrollX := 0,
    scrollY := 0, metadata := { screenSTT := some "5", tileIndex := some "0" } }

/-- After the re-render: the first tile now shows screen 9. -/
def tileAC3 : Element :=
  { key := 1, idAttr := some "screen-tile-9", dataStt := some "9",
    dataIndex := some "0", classes := ["screen-tile"], tabindex0 := true }

/-- After the re-render: the old node now carries data-stt 7 but keeps
the stable id screen-tile-5, so the domain-key target (data-stt 5) is
gone while the stable-identifier target is still present. -/
def tileBC3 : Element :=
  { key := 2, idAttr := some "screen-tile-5", dataStt := some "7",
    dataIndex := some "1", classes := ["screen-tile"], tabindex0 := true }

/-- The dashboard DOM after the re-render. -/
def domNewC3 : List Element := [tileAC3, tileBC3]

/-- A visible focusable dashboard tile for the refresh scenario. -/
def tileC6 : Element :=
  { key := 3, dataStt := some "1", classes := ["screen-tile"],
    tabindex0 := true }

/-- The dashboard DOM for the refresh scenario. -/
def domC6 : List Element := [tileC6]

/-- State with `tileC6` focused, live and visible. -/
def stC6 : FMState := { initFMState with currentFocused := some tileC6 }

/-- A single dashboard tile whose navigation attributes are all the -1
sentinel, as `setNavigationAttributes` writes for a one-tile grid. -/
def tileC9 : Element :=
  { key := 4, dataStt := some "0", classes := ["screen-tile"],
    tabindex0 := true, navUp := some (-1), navDown := some (-1),
    navLeft := some (-1), navRight := some (-1), navUpStt := some (-1),
    navDownStt := some (-1), navLeftStt := some (-1),
    navRightStt := some (-1) }

/-- The one-tile dashboard DOM. -/
def domC9 : List Element := [tileC9]

/-- State with the single tile focused and active. -/
def stC9 : FMState :=
  { initFMState with currentFocused := some tileC9,
                     activeElement := some tileC9 }

end DKTT

namespace DKTT

/-! ## Claim theorems for the layer coordinator -/

/-- C2: for every coordinator state, `pushLayer(target)` returns false and
leaves the whole state (currentLayer, layerHistory, transitionState, flags)
unchanged whenever a transition is already in progress, the target equals the
current layer, or the adjacency table forbids the move (in particular
MAP -> DETAIL_SCREEN). -/
theorem pushLayer_invalid_rejected_no_change (s : LayerNavState)
    (target : Layer) (ok : Bool)
    (h : s.isTransitioning = true ∨ target = s.currentLayer ∨
         canTransition s.currentLayer target = false) :
    pushLayer s target ok = (false, s) := by
  unfold pushLayer
  rcases h with h | h | h
  · simp [h]
  · rcases hb : s.isTransitioning with _ | _ <;> simp [hb, h]
  · rcases hb : s.isTransitioning with _ | _ <;>
      by_cases he : target = s.currentLayer <;>
      simp_all [hb, h]

/-- Witness for C2: from the initial MAP state, `pushLayer(DETAIL_SCREEN)`
is rejected with no state change. -/
theorem pushLayer_invalid_rejected_no_change_witness :
    pushLayer initNavState Layer.detailScreen true = (false, initNavState) :=
  pushLayer_invalid_rejected_no_change initNavState Layer.detailScreen true
    (Or.inr (Or.inr (by decide)))

/-- C8: calling `popLayer()` with exactly one history entry (and no
transition in progress) mutates neither the history nor the current layer
nor the transition state, returns false to the caller, and invokes the
exit-request notification (`handleExitApp`) exactly once. -/
theorem popLayer_root_requests_exit (s : LayerNavState) (ok : Bool)
    (htr : s.isTransitioning = false)
    (hlen : s.layerHistory.length = 1) :
    popLayer s ok = (false, { s with exitRequests := s.exitRequests + 1 }) := by
  unfold popLayer
  simp [htr, hlen]

/-- Witness for C8: popping at the freshly initialized root state requests
exit exactly once and changes nothing else. -/
theorem popLayer_root_requests_exit_witness :
    popLayer initNavState true =
      (false, { initNavState with exitRequests := 1 }) :=
  popLayer_root_requests_exit initNavState true (by decide) (by decide)

/-- C10: from the Dashboard layer, a successful `pushLayer(DETAIL_SCREEN)`
followed immediately by `popLayer()` returns the coordinator to the
Dashboard layer with the layer history equal to its pre-push value (hence
restored to its pre-push length). -/
theorem push_then_pop_roundtrip (s : LayerNavState) (hist : List Layer)
    (htr : s.isTransitioning = false)
    (hcur : s.currentLayer = Layer.controlPanel)
    (hhist : s.layerHistory = hist ++ [Layer.controlPanel]) :
    (pushLayer s Layer.detailScreen true).1 = true ∧
    (popLayer (pushLayer s Layer.detailScreen true).2 true).1 = true ∧
    (popLayer (pushLayer s Layer.detailScreen true).2 true).2.currentLayer
      = Layer.controlPanel ∧
    (popLayer (pushLayer s Layer.detailScreen true).2 true).2.layerHistory
      = s.layerHistory := by
  have hpush : pushLayer s Layer.detailScreen true =
      (true, { s with currentLayer := Layer.detailScreen,
                      layerHistory := s.layerHistory ++ [Layer.detailScreen],
                      transitionState := .idle, isTransitioning := false }) := by
    unfold pushLayer performTransition
    simp [htr, hcur, canTransition]
  refine ⟨by rw [hpush], ?_⟩
  rw [hpush]
  have hlen : (s.layerHistory ++ [Layer.detailScreen]).length = hist.length + 2 := by
    simp [hhist]
  have hget : (s.layerHistory ++ [Layer.detailScreen])[hist.length + 2 - 2]? =
      some Layer.controlPanel := by
    simp only [hhist, Nat.add_sub_cancel]
    rw [List.append_assoc]
    rw [List.getElem?_append_right (le_refl _)]
    simp
  have hdrop : (s.layerHistory ++ [Layer.detailScreen]).dropLast = s.layerHistory := by
    simp
  unfold popLayer
  simp only [hlen, hget]
  norm_num
  unfold performTransition
  simp [hdrop]

/-- Witness for C10: from the concrete Dashboard state, push DETAIL then pop
returns to the Dashboard with history [MAP, CONTROL_PANEL] again. -/
theorem push_then_pop_roundtrip_witness :
    (pushLayer dashboardNavState Layer.detailScreen true).1 = true ∧
    (popLayer (pushLayer dashboardNavState Layer.detailScreen true).2 true).1 = true ∧
    (popLayer (pushLayer dashboardNavState Layer.detailScreen true).2
        true).2.currentLayer = Layer.controlPanel ∧
    (popLayer (pushLayer dashboardNavState Layer.detailScreen true).2
        true).2.layerHistory = dashboardNavState.layerHistory :=
  push_then_pop_roundtrip dashboardNavState [Layer.map] (by decide) (by decide)
    (by decide)

/-! ## Theorems about the debounce trace semantics -/

/-- Running the dispatcher over a concatenated trace splits at the
accumulated busy-until time. -/
theorem runDispatch_append (b : Nat) (xs ys : List KeyArrival) :
    runDispatch b (xs ++ ys) =
      runDispatch b xs ++ runDispatch (busyAfter b xs) ys := by
  induction xs generalizing b with
  | nil => simp [runDispatch, busyAfter]
  | cons e rest ih =>
      by_cases h : e.time < b
      · simp [runDispatch, busyAfter, h, ih]
      · simp [runDispatch, busyAfter, h, ih]

/-- The busy-until time never decreases along a trace. -/
theorem busyAfter_le (b : Nat) (xs : List KeyArrival) : b ≤ busyAfter b xs := by
  induction xs generalizing b with
  | nil => simp [busyAfter]
  | cons e rest ih =>
      simp only [busyAfter]
      by_cases h : e.time < b
      · simpa [h] using ih b
      · have h1 : b ≤ e.time + e.dur + inputDelay := by omega
        have h2 := ih (e.time + e.dur + inputDelay)
        simp only [h, if_false]
        omega

/-- C1: once the dispatcher accepts a key event `e` (it arrives at or after
the current busy-until time), every later key event `f` delivered while
`e`'s handler runs or within the fixed `inputDelay` debounce window after
the handler completes (that is, with `f.time < e.time + e.dur +
inputDelay`) is dropped, regardless of how many such repeats arrive in
between: the run marks `e` dispatched and `f` dropped. -/
theorem debounce_window_drops_repeats (b0 : Nat)
    (pre mid post : List KeyArrival) (e f : KeyArrival)
    (he : busyAfter b0 pre ≤ e.time)
    (hf : f.time < e.time + e.dur + inputDelay) :
    runDispatch b0 (pre ++ e :: (mid ++ f :: post)) =
      runDispatch b0 pre ++ (e, true) ::
        (runDispatch (e.time + e.dur + inputDelay) mid ++ (f, false) ::
          runDispatch (busyAfter (e.time + e.dur + inputDelay) mid) post) := by
  have hnot : ¬ e.time < busyAfter b0 pre := not_lt.mpr he
  have hb : f.time < busyAfter (e.time + e.dur + inputDelay) mid :=
    lt_of_lt_of_le hf (busyAfter_le _ _)
  rw [runDispatch_append]
  congr 1
  simp only [runDispatch, hnot, if_false]
  congr 1
  rw [runDispatch_append]
  congr 1
  simp [runDispatch, hb]

/-- Witness for C1: with the dispatcher initially idle, a key accepted at
t=0 whose handler takes 50ms opens a busy window until t=150; repeats at
t=100 and t=120 are both dropped. -/
theorem debounce_window_drops_repeats_witness :
    busyAfter 0 [] ≤ (⟨0, 50⟩ : KeyArrival).time ∧
    (⟨120, 30⟩ : KeyArrival).time <
      (⟨0, 50⟩ : KeyArrival).time + (⟨0, 50⟩ : KeyArrival).dur + inputDelay ∧
    runDispatch 0 ([] ++ (⟨0, 50⟩ : KeyArrival) ::
        ([⟨100, 10⟩] ++ (⟨120, 30⟩ : KeyArrival) :: [])) =
      runDispatch 0 [] ++ ((⟨0, 50⟩ : KeyArrival), true) ::
        (runDispatch (0 + 50 + inputDelay) [⟨100, 10⟩] ++
          ((⟨120, 30⟩ : KeyArrival), false) ::
            runDispatch (busyAfter (0 + 50 + inputDelay) [⟨100, 10⟩]) []) :=
  ⟨by decide, by decide,
    debounce_window_drops_repeats 0 [] [⟨100, 10⟩] [] ⟨0, 50⟩ ⟨120, 30⟩
      (by decide) (by decide)⟩

/-! ## Theorems about key normalization -/

/-- C4 counterexample: the claim that every accepted raw spelling of a
logical key normalizes to a byte-identical pair is false on the code.  The
back action arriving as key "Escape" (code 27) normalizes to a different
pair than arriving as "XF86Back", and the up-arrow spellings "Up" and
"ArrowUp" keep their distinct key-name component. -/
theorem normalize_not_byte_identical_cex :
    normalizeKeyCode ⟨some "Escape", some 27⟩ ≠
      normalizeKeyCode ⟨some "XF86Back", some 10009⟩ ∧
    normalizeKeyCode ⟨some "Up", some 38⟩ ≠
      normalizeKeyCode ⟨some "ArrowUp", some 38⟩ := by
  decide

/-- C4 amended: normalization unifies the numeric code of every accepted
raw spelling of a logical key - the back spellings "XF86Back", "Back" and
raw code 10009 normalize to the identical pair (key "Back", code 10009);
the arrow and Enter/Return spellings all receive the same code while
keeping their raw key name; "Escape" keeps code 27 and is unified with
back only at dispatch, where `processKey` routes both 27 and 10009 to the
back handler. -/
theorem normalize_code_unification (c : Option Nat) (hc : c ≠ some 10009) :
    normalizeKeyCode ⟨some "XF86Back", c⟩ = ⟨some "Back", some 10009⟩ ∧
    normalizeKeyCode ⟨some "Back", c⟩ = ⟨some "Back", some 10009⟩ ∧
    (∀ k, normalizeKeyCode ⟨k, some 10009⟩ = ⟨some "Back", some 10009⟩) ∧
    (normalizeKeyCode ⟨some "Up", c⟩).keyCode = some 38 ∧
    (normalizeKeyCode ⟨some "ArrowUp", c⟩).keyCode = some 38 ∧
    (normalizeKeyCode ⟨some "Down", c⟩).keyCode = some 40 ∧
    (normalizeKeyCode ⟨some "ArrowDown", c⟩).keyCode = some 40 ∧
    (normalizeKeyCode ⟨some "Left", c⟩).keyCode = some 37 ∧
    (normalizeKeyCode ⟨some "ArrowLeft", c⟩).keyCode = some 37 ∧
    (normalizeKeyCode ⟨some "Right", c⟩).keyCode = some 39 ∧
    (normalizeKeyCode ⟨some "ArrowRight", c⟩).keyCode = some 39 ∧
    (normalizeKeyCode ⟨some "Enter", c⟩).keyCode = some 13 ∧
    (normalizeKeyCode ⟨some "Return", c⟩).keyCode = some 13 ∧
    normalizeKeyCode ⟨some "Escape", some 27⟩ = ⟨some "Escape", some 27⟩ ∧
    routeKey (some 27) = KeyAction.back ∧
    routeKey (some 10009) = KeyAction.back := by
  refine ⟨?_, ?_, fun k => ?_, ?_, ?_, ?_, ?_, ?_, ?_, ?_, ?_, ?_, ?_,
    by decide, by decide, by decide⟩ <;>
  · by_cases h : unreliableCode c = true
    · rcases hval : c with _ | v <;>
        simp_all [normalizeKeyCode, unreliableCode, keyNameMap]
    · rcases hval : c with _ | v <;>
        simp_all [normalizeKeyCode, unreliableCode, keyNameMap]

/-- Witness for C4 amended, instantiated at raw code 38. -/
theorem normalize_code_unification_witness :
    (some 38 : Option Nat) ≠ some 10009 ∧
    (normalizeKeyCode ⟨some "XF86Back", some 38⟩ = ⟨some "Back", some 10009⟩ ∧
     normalizeKeyCode ⟨some "Back", some 38⟩ = ⟨some "Back", some 10009⟩ ∧
     (∀ k, normalizeKeyCode ⟨k, some 10009⟩ = ⟨some "Back", some 10009⟩) ∧
     (normalizeKeyCode ⟨some "Up", some 38⟩).keyCode = some 38 ∧
     (normalizeKeyCode ⟨some "ArrowUp", some 38⟩).keyCode = some 38 ∧
     (normalizeKeyCode ⟨some "Down", some 38⟩).keyCode = some 40 ∧
     (normalizeKeyCode ⟨some "ArrowDown", some 38⟩).keyCode = some 40 ∧
     (normalizeKeyCode ⟨some "Left", some 38⟩).keyCode = some 37 ∧
     (normalizeKeyCode ⟨some "ArrowLeft", some 38⟩).keyCode = some 37 ∧
     (normalizeKeyCode ⟨some "Right", some 38⟩).keyCode = some 39 ∧
     (normalizeKeyCode ⟨some "ArrowRight", some 38⟩).keyCode = some 39 ∧
     (normalizeKeyCode ⟨some "Enter", some 38⟩).keyCode = some 13 ∧
     (normalizeKeyCode ⟨some "Return", some 38⟩).keyCode = some 13 ∧
     normalizeKeyCode ⟨some "Escape", some 27⟩ = ⟨some "Escape", some 27⟩ ∧
     routeKey (some 27) = KeyAction.back ∧
     routeKey (some 10009) = KeyAction.back) :=
  ⟨by decide, normalize_code_unification (some 38) (by decide)⟩

/-! ## Theorems about the processKey exception boundary -/

/-- C5 counterexample: when a registered override handler throws,
`processKey` does not catch it - the method has no catch branch - so the
exception escapes the dispatcher boundary as a rejected promise instead of
being caught and logged there. -/
theorem processKey_exception_escapes_cex :
    (processKeyOutcome (some HandlerOutcome.throws)
        (HandlerOutcome.ok false)).threw = true ∧
    processKeyOutcome (some HandlerOutcome.throws) (HandlerOutcome.ok false) =
      ⟨true, true⟩ := by
  decide

/-- C5 amended: a handler exception is not caught or logged at the
dispatcher boundary (it escapes `processKey` as a rejected promise), but
the finally branch still unconditionally schedules the `isProcessing`
reset, so the debounce window completes for every handler outcome,
including every throwing one. -/
theorem processKey_finally_reenables (c : Option HandlerOutcome)
    (d : HandlerOutcome) :
    (processKeyOutcome c d).resetScheduled = true ∧
    (processKeyOutcome (some HandlerOutcome.throws) d).threw = true := by
  constructor
  · rcases c with _ | (b | _)
    · cases d <;> rfl
    · cases b <;> cases d <;> rfl
    · rfl
  · rfl

/-! ## Theorems about the dashboard grid navigation attributes -/

/-- C7 counterexample: for 7 items in the 4-column, 2-row layout, moving
Down from index 5 (row 1, col 1) does not clamp to index 6 as the claim
states: index 5 lies in the last row (`row < rows - 1` fails), so the code
writes the no-neighbor sentinel -1. -/
theorem grid_down_from_last_row_cex :
    calculateLayout 7 = some ⟨4, 2⟩ ∧
    (setNavigationAttributes screens7 ⟨4, 2⟩ 5).row = 1 ∧
    (setNavigationAttributes screens7 ⟨4, 2⟩ 5).col = 1 ∧
    (setNavigationAttributes screens7 ⟨4, 2⟩ 5).down = -1 ∧
    (setNavigationAttributes screens7 ⟨4, 2⟩ 5).down ≠ 6 := by
  decide

/-- C7 amended: in the 7-item 4-column grid the Down clamp applies when
moving from a non-last row whose direct neighbor index is out of range -
from index 3 (row 0, col 3) the direct neighbor 7 does not exist and Down
clamps to the last item, index 6 - while moving Down from index 5, which
is already in the last row, yields the no-neighbor sentinel -1. -/
theorem grid_down_clamp_amended :
    calculateLayout 7 = some ⟨4, 2⟩ ∧
    (setNavigationAttributes screens7 ⟨4, 2⟩ 3).row = 0 ∧
    (setNavigationAttributes screens7 ⟨4, 2⟩ 3).down = 6 ∧
    (setNavigationAttributes screens7 ⟨4, 2⟩ 2).down = 6 ∧
    (setNavigationAttributes screens7 ⟨4, 2⟩ 1).down = 5 ∧
    (setNavigationAttributes screens7 ⟨4, 2⟩ 5).down = -1 := by
  decide

/-- The grid generator only writes the -1 sentinel or an index inside the
rendered screen list into the four data-nav attributes, for every rendered
tile index (this is what grounds the well-formedness hypothesis of the
spatial-movement bound when all tiles are visible). -/
theorem setNavigationAttributes_bounds (screens : List Screen)
    (layout : GridLayout) (index : Nat)
    (hidx : index < screens.length) (hcol : 0 < layout.columns) :
    ((setNavigationAttributes screens layout index).up = -1 ∨
      (0 ≤ (setNavigationAttributes screens layout index).up ∧
        (setNavigationAttributes screens layout index).up <
          (screens.length : Int))) ∧
    ((setNavigationAttributes screens layout index).down = -1 ∨
      (0 ≤ (setNavigationAttributes screens layout index).down ∧
        (setNavigationAttributes screens layout index).down <
          (screens.length : Int))) ∧
    ((setNavigationAttributes screens layout index).left = -1 ∨
      (0 ≤ (setNavigationAttributes screens layout index).left ∧
        (setNavigationAttributes screens layout index).left <
          (screens.length : Int))) ∧
    ((setNavigationAttributes screens layout index).right = -1 ∨
      (0 ≤ (setNavigationAttributes screens layout index).right ∧
        (setNavigationAttributes screens layout index).right <
          (screens.length : Int))) := by
  have hidxZ : (index : Int) < (screens.length : Int) := by exact_mod_cast hidx
  have hcolZ : (0 : Int) < (layout.columns : Int) := by exact_mod_cast hcol
  have hcle : 0 < index / layout.columns → layout.columns ≤ index := by
    intro h
    by_contra hlt
    push_neg at hlt
    rw [Nat.div_eq_of_lt hlt] at h
    exact absurd h (lt_irrefl 0)
  have hmod : 0 < index % layout.columns → 1 ≤ index := by
    intro h
    by_contra hlt
    push_neg at hlt
    have h0 : index = 0 := by omega
    rw [h0, Nat.zero_mod] at h
    exact absurd h (lt_irrefl 0)
  refine ⟨?_, ?_, ?_, ?_⟩ <;> simp only [setNavigationAttributes]
  · split_ifs with h
    · right
      have hc : (layout.columns : Int) ≤ (index : Int) := by
        exact_mod_cast hcle h
      constructor <;> omega
    · left; rfl
  · split_ifs with h1 h2
    · right
      have hc : ((index + layout.columns : Nat) : Int) <
          (screens.length : Int) := by exact_mod_cast h2
      constructor
      · positivity
      · exact hc
    · right
      constructor <;> omega
    · left; rfl
  · split_ifs with h
    · right
      have hc : (1 : Int) ≤ (index : Int) := by exact_mod_cast hmod h
      constructor <;> omega
    · left; rfl
  · split_ifs with h
    · right
      have hc : ((index : Int) + 1) < (screens.length : Int) := by
        exact_mod_cast h.2
      constructor <;> omega
    · left; rfl

/-! ## Theorems about focus restoration -/

/-- C3 counterexample: with a FocusState saved for the data-stt 5 tile,
when after a re-render the data-stt 5 target is gone but the stable id
screen-tile-5 is still present, `restoreFocusState` does not select the
stable-identifier match: it falls to the saved ordinal index and focuses
the first tile instead.  There is no stable-identifier retry step in
`restoreFocusState`. -/
theorem restore_skips_stable_id_cex :
    stSavedC3.savedState = some fsC3 ∧
    querySelector domNewC3 (Selector.sttSel "5") = none ∧
    getElementById domNewC3 "screen-tile-5" = some tileBC3 ∧
    (restoreFocusState domNewC3 stSavedC3).1 = true ∧
    (restoreFocusState domNewC3 stSavedC3).2.currentFocused = some tileAC3 ∧
    tileAC3 ≠ tileBC3 := by
  decide

/-- C3 amended: `restoreFocusState` attempts, in order, (1) the single
saved selector - which encodes the domain key when the element had one,
else the stable identifier - (2) the saved ordinal index into the
focusable list, (3) the first focusable item; the first strategy yielding
a live element wins and receives focus together with the saved scroll
offsets.  A saved domain-key selector that no longer resolves falls
through to the ordinal index, not to a stable-identifier lookup (that
layered chain exists only in `refreshFocusableElements`). -/
theorem restore_strategy_order (dom : List Element) (st : FMState)
    (state : FocusState) (hs : st.savedState = some state) :
    restoreFocusState dom st =
      match restoreChainSpec dom state with
      | some e =>
        (true, restoreScrollPosition state.scrollX state.scrollY
          (setFocus e st))
      | none => (false, st) := by
  unfold restoreFocusState restoreChainSpec
  rw [hs]
  rcases h1 : (match state.selector with
               | some sel => querySelector dom sel
               | none => none) with _ | e1
  · rcases h2 : idxGet (focusablesDashboard dom) state.elementIndex
      with _ | e2
    · rcases h3 : getFirstFocusable dom with _ | e3 <;>
        simp [h1, h2, h3, Option.orElse]
    · simp [h1, h2, Option.orElse]
  · simp [h1, Option.orElse]

/-- Witness for C3 amended: the chain evaluated on the concrete re-render
scenario. -/
theorem restore_strategy_order_witness :
    stSavedC3.savedState = some fsC3 ∧
    restoreFocusState domNewC3 stSavedC3 =
      (match restoreChainSpec domNewC3 fsC3 with
       | some e =>
         (true, restoreScrollPosition fsC3.scrollX fsC3.scrollY
           (setFocus e stSavedC3))
       | none => (false, stSavedC3)) :=
  ⟨by decide, restore_strategy_order domNewC3 stSavedC3 fsC3 (by decide)⟩

/-! ## Theorems about registry refresh -/

/-- C6: when the currently focused element is still present in the
document and visible, `refreshFocusableElements` changes nothing - it
keeps the focused element, touches neither the tracked focus nor the
scroll state, and returns early reporting the focus as preserved. -/
theorem refresh_preserves_valid_focus (dom : List Element) (st : FMState)
    (e : Element)
    (hfoc : (st.currentFocused <|> st.activeElement) = some e)
    (hmem : e ∈ dom) (hvis : e.visible = true) :
    (refreshFocusableElements dom st).2 = st ∧
    (refreshFocusableElements dom st).1.previousFocusValid = true ∧
    (refreshFocusableElements dom st).1.focusRestored = true ∧
    (refreshFocusableElements dom st).1.focusedElement = some e := by
  unfold refreshFocusableElements
  rw [hfoc]
  simp [hmem, hvis]

/-- Witness for C6 on the concrete one-tile dashboard. -/
theorem refresh_preserves_valid_focus_witness :
    (stC6.currentFocused <|> stC6.activeElement) = some tileC6 ∧
    tileC6 ∈ domC6 ∧ tileC6.visible = true ∧
    ((refreshFocusableElements domC6 stC6).2 = stC6 ∧
     (refreshFocusableElements domC6 stC6).1.previousFocusValid = true ∧
     (refreshFocusableElements domC6 stC6).1.focusRestored = true ∧
     (refreshFocusableElements domC6 stC6).1.focusedElement = some tileC6) :=
  ⟨by decide, by decide, by decide,
    refresh_preserves_valid_focus domC6 stC6 tileC6 (by decide) (by decide)
      (by decide)⟩

/-! ## Theorems about spatial movement boundedness -/

/-- The accumulator-passing indexOf returns -1 or a position at or after
the accumulator and within the list. -/
theorem idxOfAux_spec (xs : List Element) (a : Element) (k : Nat) :
    idxOfAux xs a k = -1 ∨
      ((k : Int) ≤ idxOfAux xs a k ∧
        idxOfAux xs a k < (k : Int) + xs.length) := by
  induction xs generalizing k with
  | nil => left; rfl
  | cons x rest ih =>
      simp only [idxOfAux]
      by_cases h : x = a
      · right
        rw [if_pos h]
        constructor
        · exact le_refl _
        · simp only [List.length_cons]
          push_cast
          omega
      · rw [if_neg h]
        rcases ih (k + 1) with h1 | ⟨h1, h2⟩
        · left; exact h1
        · right
          simp only [List.length_cons]
          push_cast at h1 h2 ⊢
          omega

/-- `indexOf` returns -1 or an index in [0, length). -/
theorem indexOfInt_spec (xs : List Element) (a : Element) :
    indexOfInt xs a = -1 ∨
      (0 ≤ indexOfInt xs a ∧ indexOfInt xs a < (xs.length : Int)) := by
  have h := idxOfAux_spec xs a 0
  simpa [indexOfInt] using h

/-- An element fetched by JavaScript indexing is a member of the list. -/
theorem idxGet_mem (xs : List Element) (i : Int) (e : Element)
    (h : idxGet xs i = some e) : e ∈ xs := by
  unfold idxGet at h
  by_cases hi : i < 0
  · rw [if_pos hi] at h
    exact absurd h (by simp)
  · rw [if_neg hi] at h
    obtain ⟨hlt, rfl⟩ := List.getElem?_eq_some.mp h
    exact List.getElem_mem hlt

/-- JavaScript indexing succeeds inside [0, length). -/
theorem idxGet_isSome (xs : List Element) (i : Int) (h0 : 0 ≤ i)
    (h1 : i < (xs.length : Int)) : ∃ e, idxGet xs i = some e := by
  unfold idxGet
  rw [if_neg (not_lt.mpr h0)]
  have hlt : i.toNat < xs.length := by omega
  exact ⟨xs[i.toNat], List.getElem?_eq_getElem hlt⟩

/-- The STT fallback of the dashboard branch only produces -1 or an index
within the focusable list (it is an indexOf result). -/
theorem sttNavLookup_bounds (dom : List Element) (fs : List Element)
    (a : Element) (d : Dir) (v : Int)
    (h : sttNavLookup dom fs a d = some v) :
    v = -1 ∨ (0 ≤ v ∧ v < (fs.length : Int)) := by
  unfold sttNavLookup at h
  rcases hns : navStt a d with _ | s
  · simp only [hns] at h
    exact absurd h (by simp)
  · simp only [hns] at h
    by_cases hs1 : s ≠ -1
    · rw [if_pos hs1] at h
      rcases hq : querySelector dom (.sttSel (toString s)) with _ | t
      · rw [hq] at h; exact absurd h (by simp)
      · rw [hq] at h
        have hv : v = indexOfInt fs t := by
          injection h with h'
          exact h'.symm
        rw [hv]
        exact indexOfInt_spec fs t
    · rw [if_neg hs1] at h
      exact absurd h (by simp)

/-- The dashboard branch produces -1 or an index within the focusable
list whenever the tile's data-nav attribute for the direction is well
formed. -/
theorem dashboardNavLookup_bounds (dom : List Element) (fs : List Element)
    (a : Element) (d : Dir)
    (hwf : wfNavVal fs.length (navIdx a d) = true) (v : Int)
    (h : dashboardNavLookup dom fs a d = some v) :
    v = -1 ∨ (0 ≤ v ∧ v < (fs.length : Int)) := by
  unfold dashboardNavLookup at h
  rcases hni : navIdx a d with _ | i
  · simp only [hni] at h
    exact sttNavLookup_bounds dom fs a d v h
  · simp only [hni] at h
    by_cases hi : i ≠ -1
    · rw [if_pos hi] at h
      have hv : v = i := by
        injection h with h'
        exact h'.symm
      unfold wfNavVal at hwf
      rw [hni] at hwf
      subst hv
      rcases Bool.or_eq_true _ _ |>.mp hwf with h1 | h2
      · exact Or.inl (by simpa using h1)
      · right
        have := Bool.and_eq_true _ _ |>.mp h2
        constructor
        · simpa using this.1
        · simpa using this.2
    · rw [if_neg hi] at h
      exact sttNavLookup_bounds dom fs a d v h

/-- The whole dashboard-layer branch produces -1 or an index within the
focusable list under well-formed attributes. -/
theorem dashboardBranch_bounds (dom : List Element) (fs : List Element)
    (d : Dir) (ae : Option Element)
    (hwf : ∀ a, ae = some a → isScreenTile a = true →
      wfNavVal fs.length (navIdx a d) = true) (v : Int)
    (h : dashboardBranch dom fs d ae = some v) :
    v = -1 ∨ (0 ≤ v ∧ v < (fs.length : Int)) := by
  unfold dashboardBranch at h
  rcases hae : ae with _ | a
  · rw [hae] at h
    exact absurd h (by simp)
  · rw [hae] at h
    by_cases ht : isScreenTile a = true
    · simp only [ht, if_true] at h
      exact dashboardNavLookup_bounds dom fs a d (hwf a hae ht) v h
    · simp only [ht, if_false] at h
      exact absurd h (by simp)

/-- `calculateTargetIndex` produces -1 or an index within the focusable
list, given a current index in range and well-formed attributes on the
active tile. -/
theorem calcTarget_bounds (dom : List Element) (fs : List Element)
    (ci : Nat) (d : Dir) (ae : Option Element)
    (hci : ci < fs.length)
    (hwf : ∀ a, ae = some a → isScreenTile a = true →
      wfNavVal fs.length (navIdx a d) = true) :
    calculateTargetIndex dom fs ci fs.length d ae = -1 ∨
      (0 ≤ calculateTargetIndex dom fs ci fs.length d ae ∧
        calculateTargetIndex dom fs ci fs.length d ae < (fs.length : Int)) := by
  unfold calculateTargetIndex
  have hpos : 0 < fs.length := Nat.lt_of_le_of_lt (Nat.zero_le ci) hci
  have hn1 : (1 : Int) ≤ (fs.length : Int) := by exact_mod_cast hpos
  have hciZ : (ci : Int) < (fs.length : Int) := by exact_mod_cast hci
  rcases hdb : dashboardBranch dom fs d ae with _ | v
  · simp only [hdb]
    right
    cases d
    · exact ⟨le_max_left 0 _, max_lt (by omega) (by omega)⟩
    · exact ⟨le_min (by omega) (by omega),
        lt_of_le_of_lt (min_le_left _ _) (by omega)⟩
    · exact ⟨le_max_left 0 _, max_lt (by omega) (by omega)⟩
    · exact ⟨le_min (by omega) (by omega),
        lt_of_le_of_lt (min_le_left _ _) (by omega)⟩
  · simp only [hdb]
    exact dashboardBranch_bounds dom fs d ae hwf v hdb

/-- The tracked current index is -1 or a position within the focusable
list. -/
theorem currentIndexOf_spec (dom : List Element) (st : FMState) :
    currentIndexOf dom st = -1 ∨
      (0 ≤ currentIndexOf dom st ∧
        currentIndexOf dom st < ((focusablesDashboard dom).length : Int)) := by
  unfold currentIndexOf
  rcases h : (st.currentFocused <|> st.activeElement) with _ | e
  · left; rfl
  · exact indexOfInt_spec _ e

/-- C9: with well-formed navigation attributes on the active tile (as the
grid generator writes them), `moveFocus` either reports no movement and
leaves the state unchanged, or focuses an element of the focusable list -
never an out-of-range index; and on a single-item list with the focused
item in the list, every direction is a no-op that reports no movement. -/
theorem moveFocus_bounded (dom : List Element) (st : FMState) (d : Dir)
    (hwf : wfNavAttrs dom st = true) :
    ((moveFocus dom st d).1 = false ∧ (moveFocus dom st d).2 = st ∨
      ∃ e, e ∈ focusablesDashboard dom ∧
        (moveFocus dom st d).2.currentFocused = some e) ∧
    ((focusablesDashboard dom).length = 1 → currentIndexOf dom st ≠ -1 →
      moveFocus dom st d = (false, st)) := by
  have hwf' : ∀ a, st.activeElement = some a → isScreenTile a = true →
      wfNavVal (focusablesDashboard dom).length (navIdx a d) = true := by
    intro a ha hta
    unfold wfNavAttrs at hwf
    simp only [ha, hta, Bool.not_true, Bool.false_or, Bool.and_eq_true]
      at hwf
    cases d <;> simp only [navIdx] <;> tauto
  constructor
  · unfold moveFocus
    by_cases hci : currentIndexOf dom st = -1
    · rw [if_pos hci]
      unfold focusFirstElement
      rcases hh : getFirstFocusable dom with _ | e
      · left; exact ⟨rfl, rfl⟩
      · right
        refine ⟨e, ?_, rfl⟩
        unfold getFirstFocusable at hh
        exact List.mem_of_mem_head? (by simp [hh])
    · rw [if_neg hci]
      rcases currentIndexOf_spec dom st with h | ⟨h0, h1⟩
      · exact absurd h hci
      · have hciNat : (currentIndexOf dom st).toNat <
            (focusablesDashboard dom).length := by omega
        have hb := calcTarget_bounds dom (focusablesDashboard dom)
          (currentIndexOf dom st).toNat d st.activeElement hciNat hwf'
        by_cases hcond : calculateTargetIndex dom (focusablesDashboard dom)
            (currentIndexOf dom st).toNat (focusablesDashboard dom).length d
            st.activeElement ≠ -1 ∧
            calculateTargetIndex dom (focusablesDashboard dom)
              (currentIndexOf dom st).toNat
              (focusablesDashboard dom).length d st.activeElement ≠
              currentIndexOf dom st
        · rw [if_pos hcond]
          rcases hb with hb | ⟨hb0, hb1⟩
          · exact absurd hb hcond.1
          · obtain ⟨e, he⟩ := idxGet_isSome (focusablesDashboard dom) _ hb0 hb1
            right
            refine ⟨e, idxGet_mem _ _ _ he, ?_⟩
            simp [he, setFocus]
        · rw [if_neg hcond]
          left; exact ⟨rfl, rfl⟩
  · intro hn1 hci
    unfold moveFocus
    rw [if_neg hci]
    rcases currentIndexOf_spec dom st with h | ⟨h0, h1⟩
    · exact absurd h hci
    · have hci0 : currentIndexOf dom st = 0 := by
        rw [hn1] at h1
        omega
      have hciNat : (currentIndexOf dom st).toNat <
          (focusablesDashboard dom).length := by omega
      have hb := calcTarget_bounds dom (focusablesDashboard dom)
        (currentIndexOf dom st).toNat d st.activeElement hciNat hwf'
      have hcond : ¬ (calculateTargetIndex dom (focusablesDashboard dom)
          (currentIndexOf dom st).toNat (focusablesDashboard dom).length d
          st.activeElement ≠ -1 ∧
          calculateTargetIndex dom (focusablesDashboard dom)
            (currentIndexOf dom st).toNat
            (focusablesDashboard dom).length d st.activeElement ≠
            currentIndexOf dom st) := by
        rcases hb with hb | ⟨hb0, hb1⟩
        · intro hc; exact hc.1 hb
        · intro hc
          apply hc.2
          have hlen : ((focusablesDashboard dom).length : Int) = 1 := by
            rw [hn1]
            rfl
          omega
      rw [if_neg hcond]

/-- Witness for C9: on the one-tile dashboard with the generator's -1
attributes, moving down reports no movement and leaves everything
unchanged. -/
theorem moveFocus_bounded_witness :
    wfNavAttrs domC9 stC9 = true ∧
    (((moveFocus domC9 stC9 Dir.down).1 = false ∧
        (moveFocus domC9 stC9 Dir.down).2 = stC9 ∨
      ∃ e, e ∈ focusablesDashboard domC9 ∧
        (moveFocus domC9 stC9 Dir.down).2.currentFocused = some e) ∧
     ((focusablesDashboard domC9).length = 1 →
        currentIndexOf domC9 stC9 ≠ -1 →
        moveFocus domC9 stC9 Dir.down = (false, stC9))) :=
  ⟨by decide, moveFocus_bounded domC9 stC9 Dir.down (by decide)⟩

end DKTT
